import Mathlib

/-!
Shallow embedding of the SenteryV3 object-detection backend
(`python-backend/detector.py`, `python-backend/app.py`,
`python-backend/config.py`): the session supervisor, capture watchdog
counters, heartbeat monitor, notification throttler and the stream-URL
parsing.  Machine-level concerns (actual video IO, HTTP transport,
threading interleavings) are abstracted into explicit environment
parameters; everything that decides the analysed claims is translated
from the Python source.
-/

namespace Sentery

/-! ### String helpers modelling the Python primitives used by the source -/

/-- Model of Python `str.startswith`. -/
def pyStartsWith (s pre : String) : Bool :=
  pre.toList.isPrefixOf s.toList

/-- Model of Python `str.lower` (ASCII case folding, which covers the
class labels appearing in the code). -/
def pyLower (s : String) : String :=
  ⟨s.toList.map Char.toLower⟩

/-- Model of Python `c in s` for a single character. -/
def pyContainsChar (s : String) (c : Char) : Bool :=
  s.toList.contains c

/-- Model of Python `str.strip()` on ASCII whitespace. -/
def pyStrip (s : String) : String :=
  ⟨((s.toList.dropWhile Char.isWhitespace).reverse.dropWhile Char.isWhitespace).reverse⟩

/-- Model of Python `str.lstrip("/")`. -/
def pyLstripSlash (s : String) : String :=
  ⟨s.toList.dropWhile (fun c => c = '/')⟩

/-- Model of Python `str.rstrip("/")`. -/
def pyRstripSlash (s : String) : String :=
  ⟨(s.toList.reverse.dropWhile (fun c => c = '/')).reverse⟩

/-- Fuel-driven worker for `pyReplace`; each step either copies one
character or replaces one (non-empty) occurrence of the pattern, so
`l.length` fuel always suffices. -/
def replaceAllAux : Nat → List Char → List Char → List Char → List Char
  | 0, _, _, l => l
  | _ + 1, _, _, [] => []
  | fuel + 1, pat, rep, c :: rest =>
    if pat.isPrefixOf (c :: rest) then
      rep ++ replaceAllAux fuel pat rep ((c :: rest).drop pat.length)
    else
      c :: replaceAllAux fuel pat rep rest

/-- Model of Python `str.replace(pat, rep)`: replaces every
(left-to-right, non-overlapping) occurrence.  The source only calls it
with the non-empty pattern `"webcam://"`; for an empty pattern this
model returns the string unchanged. -/
def pyReplace (s pat rep : String) : String :=
  if pat.toList = [] then s
  else ⟨replaceAllAux s.toList.length pat.toList rep.toList s.toList⟩

/-- Substring test (Python `needle in hay`). -/
def strContains (hay needle : String) : Bool :=
  (List.range (hay.toList.length + 1)).any
    (fun i => needle.toList.isPrefixOf (hay.toList.drop i))

/-- Digit sequences possibly separated by single underscores, as accepted
between the optional sign and the end by Python `int(...)`:
`"1_000"` is valid, `"_1"`, `"1_"`, `"1__0"` and `""` are not. -/
def pyDigitsU : List Char → Bool
  | [] => false
  | [c] => c.isDigit
  | c :: '_' :: rest => c.isDigit && pyDigitsU rest
  | c :: d :: rest => c.isDigit && pyDigitsU (d :: rest)

/-- Numeric value of a list of decimal digits. -/
def digitsVal (l : List Char) : Nat :=
  l.foldl (fun a c => a * 10 + (c.toNat - 48)) 0

/-- Model of Python `int(s)` on strings: strips whitespace, accepts an
optional sign followed by digits with single interior underscores, and
raises `ValueError` (here: `none`) otherwise. -/
def pyIntParse (s : String) : Option Int :=
  match (pyStrip s).toList with
  | '+' :: rest =>
    if pyDigitsU rest then some ((digitsVal (rest.filter (fun c => c ≠ '_')) : Nat) : Int)
    else none
  | '-' :: rest =>
    if pyDigitsU rest then some (-((digitsVal (rest.filter (fun c => c ≠ '_')) : Nat) : Int))
    else none
  | rest =>
    if pyDigitsU rest then some ((digitsVal (rest.filter (fun c => c ≠ '_')) : Nat) : Int)
    else none

/-- Truthiness of a Python string (`""` is falsy). -/
def strTruthy (s : String) : Bool := !(s == "")

/-- Truthiness of an optional Python string (`None` and `""` are falsy). -/
def optTruthy : Option String → Bool
  | none => false
  | some s => strTruthy s

/-! ### Stream locator parsing (`ObjectDetector.start_detection`, detector.py 83-103) -/

/-- The value stored in `self.stream_url`: either a local webcam index
(an `int` in Python) or a URL string. -/
inductive StreamUrl where
  | webcam (idx : Int)
  | url (s : String)
  deriving DecidableEq

/-- Translation of detector.py lines 83-103: turn the caller-supplied
camera URL and port into the stream locator handed to `cv2.VideoCapture`.
`int(camera_url.replace('webcam://', '') or 0)` is modelled by the
empty-suffix test plus `pyIntParse`, with the `ValueError` handler
mapping to webcam index 0. -/
def parse_stream_url (camera_url camera_port : String) : StreamUrl :=
  if pyStartsWith camera_url "webcam://" then
    let sfx := pyReplace camera_url "webcam://" ""
    if sfx = "" then .webcam 0
    else
      match pyIntParse sfx with
      | some n => .webcam n
      | none => .webcam 0
  else if pyStartsWith camera_url "rtmp://" || pyStartsWith camera_url "srt://" then
    .url (if strTruthy camera_port && !(pyContainsChar camera_url ':') then
            camera_url ++ ":" ++ camera_port
          else camera_url)
  else if !(pyStartsWith camera_url "http://" || pyStartsWith camera_url "https://") then
    let cu := "http://" ++ camera_url
    .url (if strTruthy camera_port then cu ++ ":" ++ camera_port else cu)
  else
    .url (if strTruthy camera_port && !(pyContainsChar camera_url ':') then
            camera_url ++ ":" ++ camera_port
          else camera_url)

/-! ### Data model (`ObjectDetector.__init__`, app.py module globals) -/

/-- A frame is opaque for the supervisor logic; only its presence in the
single-slot buffer matters. -/
abbrev Frame := Nat

/-- A `cv2.VideoCapture` object as seen by the supervisor: it either
reports `isOpened()` or not. -/
structure Capture where
  opened : Bool
  deriving DecidableEq

/-- The session settings dictionary after the `settings.get(...)`
extraction performed in `start_detection` (detector.py 80-115), with the
defaults of those `get` calls. -/
structure Settings where
  ipCameraUrl : String := ""
  ipCameraPort : String := ""
  ntfyTopic : Option String := none
  ntfyPriority : String := "default"
  enablePersonDetection : Bool := true
  userId : String := "unknown-user"
  supabaseUrl : Option String := none
  supabaseKey : Option String := none
  enableLogging : Bool := false
  deriving DecidableEq

/-- State of the `ObjectDetector` singleton (detector.py 20-36).
`model` is tracked as a loaded flag, `cap` as an optional capture
object, and the per-class cooldown dictionary as an insertion-ordered
association list. -/
structure Det where
  model_loaded : Bool
  is_running : Bool
  stream_url : Option StreamUrl
  ntfy_topic : Option String
  ntfy_priority : String
  last_notification_time : List (String × ℚ)
  notification_cooldown : ℚ
  cap : Option Capture
  user_id : Option String
  supabase_url : Option String
  supabase_key : Option String
  enable_logging : Bool
  enable_person_detection : Bool
  last_heartbeat : ℚ
  heartbeat_interval : ℚ
  deriving DecidableEq

/-- `ObjectDetector.__init__` (detector.py 20-36). -/
def det_init : Det :=
  { model_loaded := false
    is_running := false
    stream_url := none
    ntfy_topic := none
    ntfy_priority := "default"
    last_notification_time := []
    notification_cooldown := 60
    cap := none
    user_id := none
    supabase_url := none
    supabase_key := none
    enable_logging := false
    enable_person_detection := true
    last_heartbeat := 0
    heartbeat_interval := 5 }

/-- The app.py module-level globals relevant to the session supervisor
(app.py 22-28). -/
structure AppState where
  detection_active : Bool
  current_settings : Option Settings
  latest_frame : Option Frame
  deriving DecidableEq

/-- Initial values of the app.py globals. -/
def app_init : AppState :=
  { detection_active := false, current_settings := none, latest_frame := none }

/-- Environment for one `start_detection` call: the wall-clock instant of
its initial heartbeat stamp, whether `load_model` would succeed, and
whether `cv2.VideoCapture(...).isOpened()` holds for the stream. -/
structure Env where
  now : ℚ
  model_ok : Bool
  open_ok : Bool
  deriving DecidableEq

/-! ### Cooldown dictionary operations (Python dict on string keys) -/

/-- Python `d.get(k)` (first — and only — binding wins; the list never
holds duplicate keys). -/
def dictGet : List (String × ℚ) → String → Option ℚ
  | [], _ => none
  | p :: rest, k => if p.1 == k then some p.2 else dictGet rest k

/-- Python `k in d`. -/
def dictMem (d : List (String × ℚ)) (k : String) : Bool :=
  (dictGet d k).isSome

/-- Python `d[k] = v`: update in place, or append a new binding. -/
def dictSet : List (String × ℚ) → String → ℚ → List (String × ℚ)
  | [], k, v => [(k, v)]
  | p :: rest, k, v => if p.1 == k then (k, v) :: rest else p :: dictSet rest k v

/-! ### Detector heartbeat (detector.py 38-52) -/

/-- `ObjectDetector.get_last_heartbeat_age` (detector.py 43-45). -/
def get_last_heartbeat_age (d : Det) (now : ℚ) : ℚ :=
  now - d.last_heartbeat

/-- `ObjectDetector.is_heartbeat_active` (detector.py 47-52): alive while
the age is below three times the heartbeat interval.  (Defined by the
source but never consulted by the monitoring thread.) -/
def is_heartbeat_active (d : Det) (now : ℚ) : Bool :=
  decide (get_last_heartbeat_age d now < d.heartbeat_interval * 3)

/-! ### Session start / stop (detector.py 70-155, app.py 172-299) -/

/-- `ObjectDetector.start_detection` (detector.py 70-142).  Returns the
updated detector, the success flag and the message of the `(bool, str)`
pair the Python function returns.  On a failed open the `cap` attribute
keeps the unopened `VideoCapture` object, exactly as in the source. -/
def detector_start (st : Settings) (env : Env) (d : Det) : Det × Bool × String :=
  if d.is_running then (d, false, "Detection is already running")
  else
    let d := { d with last_heartbeat := env.now }
    let d := { d with
      stream_url := some (parse_stream_url st.ipCameraUrl st.ipCameraPort)
      ntfy_topic := st.ntfyTopic
      ntfy_priority := st.ntfyPriority
      enable_person_detection := st.enablePersonDetection
      user_id := some st.userId
      supabase_url := st.supabaseUrl
      supabase_key := st.supabaseKey
      enable_logging := st.enableLogging }
    if !d.model_loaded && !env.model_ok then
      (d, false, "Failed to load detection model")
    else
      let d := { d with model_loaded := true }
      let d := { d with cap := some ⟨env.open_ok⟩ }
      if !env.open_ok then (d, false, "Failed to open video stream")
      else ({ d with is_running := true }, true, "Detection started successfully")

/-- `ObjectDetector.stop_detection` (detector.py 144-155). -/
def detector_stop (d : Det) : Det × Bool × String :=
  if !d.is_running then (d, false, "Detection is not running")
  else ({ d with is_running := false, cap := none }, true, "Detection stopped successfully")

/-- The `/start` route (app.py 172-246): reject while active, reject a
missing camera URL, otherwise call `ObjectDetector.start_detection` and
on success set the active flag and save the settings for restart. -/
def app_start (a : AppState) (d : Det) (st : Settings) (env : Env) :
    AppState × Det × Bool :=
  if a.detection_active then (a, d, false)
  else if !(strTruthy st.ipCameraUrl) then (a, d, false)
  else
    let r := detector_start st env d
    if r.2.1 then
      ({ a with detection_active := true, current_settings := some st }, r.1, true)
    else (a, r.1, false)

/-- The `/stop` route (app.py 257-299): reject while inactive, otherwise
call `ObjectDetector.stop_detection` and on success clear the active
flag, the latest frame and the saved settings. -/
def app_stop (a : AppState) (d : Det) : AppState × Det × Bool :=
  if !a.detection_active then (a, d, false)
  else
    let r := detector_stop d
    if r.2.1 then
      ({ a with detection_active := false, latest_frame := none, current_settings := none },
       r.1, true)
    else (a, r.1, false)

/-! ### Notification throttler (`ObjectDetector.process_detections`, detector.py 335-366) -/

/-- One detection as consumed by `process_detections`: class label and
confidence.  Confidences are rationals in the model (the claims never
depend on binary floating-point rounding). -/
structure Detection where
  cls : String
  confidence : ℚ
  deriving DecidableEq

/-- One invocation of `self.send_notification(object_class, confidence,
is_priority)`: the argument triple. -/
structure NotifCall where
  object_class : String
  confidence : ℚ
  is_priority : Bool
  deriving DecidableEq

/-- One invocation of `self.log_detection(object_class, confidence)`. -/
structure LogCall where
  object_type : String
  confidence : ℚ
  deriving DecidableEq

/-- The body of the `for detection in detections` loop of
`process_detections` for a single detection (detector.py 339-366):
given the constant per-call fields of the detector and the current
cooldown table, produce the updated table together with the
notification and logging calls this detection emits. -/
def proc_one (det : Det) (t : ℚ) (tab : List (String × ℚ)) (d : Detection) :
    List (String × ℚ) × List NotifCall × List LogCall :=
  let oc := d.cls
  let conf := d.confidence
  let logOk := det.enable_logging && optTruthy det.supabase_url && optTruthy det.supabase_key
  if pyLower oc == "person" && det.enable_person_detection then
    let last := (dictGet tab oc).getD 0
    if optTruthy det.ntfy_topic &&
        (!(dictMem tab oc) || decide (t - last > det.notification_cooldown)) then
      (dictSet tab oc t, [⟨oc, conf, true⟩], if logOk then [⟨oc, conf⟩] else [])
    else (tab, [], [])
  else
    if !(dictMem tab oc) ||
        decide (t - (dictGet tab oc).getD 0 > det.notification_cooldown) then
      if optTruthy det.ntfy_topic then
        (dictSet tab oc t, [⟨oc, conf, false⟩], if logOk then [⟨oc, conf⟩] else [])
      else (tab, [], if logOk then [⟨oc, conf⟩] else [])
    else (tab, [], [])

/-- The loop of `process_detections` over the whole detection list,
threading the cooldown table and collecting the emitted calls in
order. -/
def proc_list (det : Det) (t : ℚ) (tab : List (String × ℚ)) :
    List Detection → List (String × ℚ) × List NotifCall × List LogCall
  | [] => (tab, [], [])
  | d :: ds =>
    let r1 := proc_one det t tab d
    let r2 := proc_list det t r1.1 ds
    (r2.1, r1.2.1 ++ r2.2.1, r1.2.2 ++ r2.2.2)

/-- `ObjectDetector.process_detections` (detector.py 335-366): updates
`self.last_notification_time` and returns the notification / logging
requests made during the call. -/
def process_detections (det : Det) (t : ℚ) (ds : List Detection) :
    Det × List NotifCall × List LogCall :=
  let r := proc_list det t det.last_notification_time ds
  ({ det with last_notification_time := r.1 }, r.2.1, r.2.2)

/-! ### Notification construction (`ObjectDetector.send_notification`, detector.py 368-411) -/

/-- `config.NTFY_BASE_URL` default (config.py 24). -/
def NTFY_BASE_URL : String := "https://ntfy.sh"

/-- The HTTP notification request assembled by `send_notification`:
header fields and the message body posted to the resolved URL. -/
structure NotifRequest where
  title : String
  message : String
  priority : String
  tags : String
  url : String
  deriving DecidableEq

/-- Two-decimal percent rendering, modelling Python `f"{x:.2%}"` on the
exact rational value (e.g. `0.92 ↦ "92.00%"`). -/
def formatPercent2 (q : ℚ) : String :=
  let n : Int := round (q * 10000)
  let m := n.natAbs
  let fp := m % 100
  (if n < 0 then "-" else "") ++ toString (m / 100) ++ "." ++
    (if fp < 10 then "0" ++ toString fp else toString fp) ++ "%"

/-- Python `f"{base}/{topic}"` after stripping slashes, or the topic
itself when it is already a full URL (detector.py 395-401). -/
def resolve_ntfy_url (topic : String) : String :=
  if pyStartsWith topic "http://" || pyStartsWith topic "https://" then topic
  else pyRstripSlash NTFY_BASE_URL ++ "/" ++ pyLstripSlash topic

/-- `ObjectDetector.send_notification` (detector.py 368-411) as the pure
construction of the posted request.  `timestamp` stands for
`datetime.now().strftime("%H:%M:%S")`. -/
def send_notification (object_class : String) (confidence : ℚ) (is_priority : Bool)
    (ntfy_priority : String) (ntfy_topic : String) (timestamp : String) : NotifRequest :=
  if pyLower object_class == "person" then
    { title := "Person Detected!"
      message := "[" ++ timestamp ++ "] " ++ "A person was detected with " ++
        formatPercent2 confidence ++ " confidence"
      priority := "urgent"
      tags := "warning,eyes,bell"
      url := resolve_ntfy_url ntfy_topic }
  else
    { title := "Object Detected: " ++ object_class
      message := "[" ++ timestamp ++ "] " ++ "Detected " ++ object_class ++ " with " ++
        formatPercent2 confidence ++ " confidence"
      priority := if is_priority then "high" else ntfy_priority
      tags := "warning"
      url := resolve_ntfy_url ntfy_topic }

/-! ### Heartbeat monitor (`monitor_detector`, app.py 31-81) -/

/-- Environment of one pass of the monitoring loop body: `now` is the
instant of the `detector.heartbeat()` re-stamp (app.py 41, also used for
the heartbeat set inside a restarted `start_detection`), `check_time`
the instant of the later age check (app.py 72), and `env` the outcome
environment for a possible restart. -/
structure MonEnv where
  now : ℚ
  check_time : ℚ
  env : Env
  deriving DecidableEq

/-- One pass of the `while monitoring_active` body of `monitor_detector`
(app.py 37-79) while the monitoring thread is alive.  Returns the
updated app state and detector, a flag recording whether the
stop-then-start restart cycle was performed, and whether the
heartbeat-age warning of app.py 72-74 fired. -/
def monitor_step (a : AppState) (d : Det) (m : MonEnv) :
    AppState × Det × Bool × Bool :=
  if !a.detection_active then (a, d, false, false)
  else
    let d := { d with last_heartbeat := m.now }
    let r :=
      if !d.is_running then
        match a.current_settings with
        | some st =>
          let d1 := (detector_stop d).1
          let r2 := detector_start st { m.env with now := m.now } d1
          if r2.2.1 then (a, r2.1, true)
          else ({ a with detection_active := false, latest_frame := none }, r2.1, true)
        | none => (a, d, false)
      else (a, d, false)
    let warned := decide (m.check_time - r.2.1.last_heartbeat > r.2.1.heartbeat_interval * 2)
    (r.1, r.2.1, r.2.2, warned)

/-! ### Capture watchdog read-error counters (detection_loop, detector.py 160-248) -/

/-- The two loop-local counters of `detection_loop` that govern
reconnect-on-read-failure: `consecutive_errors` (detector.py 161) and,
for observation, the number of forced reconnections performed by the
branch at detector.py 231-242. -/
structure LoopCtrs where
  consecutive_errors : Nat
  reconnects : Nat
  deriving DecidableEq

/-- `max_consecutive_errors` (detector.py 162). -/
def max_consecutive_errors : Nat := 10

/-- Effect of one frame-read outcome on the counters (detector.py
226-248): failure increments the consecutive counter and, when it
reaches the threshold, resets it and forces one reconnection; success
resets the counter. -/
def read_step (c : LoopCtrs) (ok : Bool) : LoopCtrs :=
  if ok then { c with consecutive_errors := 0 }
  else
    let n := c.consecutive_errors + 1
    if max_consecutive_errors ≤ n then
      { consecutive_errors := 0, reconnects := c.reconnects + 1 }
    else { c with consecutive_errors := n }

/-- Counters after a sequence of frame-read outcomes. -/
def run_reads (c : LoopCtrs) (l : List Bool) : LoopCtrs :=
  l.foldl read_step c

/-! ### Reachable session states -/

/-- States of the combined supervisor (app.py globals plus the detector
singleton) reachable through the operations of the source: the HTTP
start/stop routes, the monitor pass, and the detection-loop transitions
that touch the capture handle — the stuck-read release (detector.py
214-220), a reconnection attempt replacing the handle (detector.py
175-204 and 231-242), and the cleanup after the loop exits on an
exhausted reconnect budget (detector.py 193 and 324-333). -/
inductive Reach : AppState × Det → Prop where
  | init : Reach (app_init, det_init)
  | start (a : AppState) (d : Det) (st : Settings) (env : Env) :
      Reach (a, d) →
      Reach ((app_start a d st env).1, (app_start a d st env).2.1)
  | stop (a : AppState) (d : Det) :
      Reach (a, d) →
      Reach ((app_stop a d).1, (app_stop a d).2.1)
  | monitor (a : AppState) (d : Det) (m : MonEnv) :
      Reach (a, d) →
      Reach ((monitor_step a d m).1, (monitor_step a d m).2.1)
  | stuck_read (a : AppState) (d : Det) (c : Capture) :
      Reach (a, d) → d.is_running = true → d.cap = some c → c.opened = true →
      Reach (a, { d with cap := none })
  | reconnect (a : AppState) (d : Det) (b : Bool) :
      Reach (a, d) → d.is_running = true →
      Reach (a, { d with cap := some ⟨b⟩ })
  | loop_exit (a : AppState) (d : Det) :
      Reach (a, d) → d.is_running = true →
      Reach (a, { d with cap := none })

/-! ### Concrete scenario states used by the theorems -/

/-- The capture-handle/`SessionState` correspondence asserted by the
spec: an open capture object implies the detector is running. -/
def capInv (d : Det) : Prop :=
  ∀ c : Capture, d.cap = some c → c.opened = true → d.is_running = true

/-- The scenario settings of spec §8: local webcam 0, topic `alerts`,
person alerting enabled. -/
def st0 : Settings := { ipCameraUrl := "webcam://0", ntfyTopic := some "alerts" }

/-- Environment where the model loads and the stream opens. -/
def env0 : Env := { now := 0, model_ok := true, open_ok := true }

/-- Environment where opening the stream fails. -/
def env_bad : Env := { now := 0, model_ok := true, open_ok := false }

/-- Detector state right after a successful `start_detection` with the
scenario settings. -/
def det_run : Det := (detector_start st0 env0 det_init).1

/-- App globals of a running session with the scenario settings saved
and a frame in the single slot. -/
def a_run : AppState :=
  { detection_active := true, current_settings := some st0, latest_frame := some 7 }

/-- Running detector after one notified `dog` detection at time 100:
its cooldown table holds the entry `("dog", 100)`. -/
def detC1 : Det := (process_detections det_run 100 [⟨"dog", 1/2⟩]).1

/-- Monitor environment polling at time 1000 (heartbeat age 1000 against
the 5-second interval). -/
def mFar : MonEnv := { now := 1000, check_time := 1000, env := env0 }

/-- Monitor environment whose restart attempt fails to open the
stream. -/
def mBad : MonEnv := { now := 1000, check_time := 1000, env := env_bad }

/-- A session whose detection loop has died: the app still marks it
active but the internal running flag is down. -/
def dDead : Det := { det_run with is_running := false }

/-- Detector configured for persistence logging with credentials but no
notification topic. -/
def det_log : Det :=
  { det_init with enable_logging := true,
                  supabase_url := some "https://sb.example",
                  supabase_key := some "key" }

/-- Reachable state: fresh start of the scenario session. -/
def s1C3 : AppState × Det :=
  ((app_start app_init det_init st0 env0).1, (app_start app_init det_init st0 env0).2.1)

/-- Reachable state: the stuck-read recovery of detector.py 214-220 has
released the capture handle while the session is still running. -/
def s2C3 : AppState × Det := (s1C3.1, { s1C3.2 with cap := none })

/-- Reachable state: a start whose stream failed to open left the
unopened capture object behind while the session is not running. -/
def s3bad : AppState × Det :=
  ((app_start app_init det_init st0 env_bad).1, (app_start app_init det_init st0 env_bad).2.1)

/-- The request built for the scenario person detection at confidence
0.92 (timestamp fixed at 12:00:00). -/
def req8 : NotifRequest :=
  send_notification "person" (92/100) true det_run.ntfy_priority "alerts" "12:00:00"

section

attribute [local semireducible] Rat.mul Rat.inv Rat.add Rat.sub Rat.ofScientific

/-! ### Capture watchdog counting (claim C6) -/

/-- Counters after `N` straight failed reads, starting from a clean
counter below the threshold: the errors wrap at
`max_consecutive_errors`, each wrap forcing one reconnection. -/
theorem run_reads_replicate_false (N : Nat) : ∀ (e r : Nat), e < max_consecutive_errors →
    run_reads ⟨e, r⟩ (List.replicate N false) =
      ⟨(e + N) % max_consecutive_errors, r + (e + N) / max_consecutive_errors⟩ := by
  induction N with
  | zero =>
    intro e r he
    simp only [List.replicate_zero, run_reads, List.foldl_nil, max_consecutive_errors] at he ⊢
    have h1 : e % 10 = e := Nat.mod_eq_of_lt he
    have h2 : e / 10 = 0 := Nat.div_eq_of_lt he
    simp [h1, h2]
  | succ n ih =>
    intro e r he
    rw [List.replicate_succ]
    have hstep : run_reads ⟨e, r⟩ (false :: List.replicate n false) =
        run_reads (read_step ⟨e, r⟩ false) (List.replicate n false) := by
      simp [run_reads]
    rw [hstep]
    by_cases hth : max_consecutive_errors ≤ e + 1
    · have he9 : e = 9 := by
        simp only [max_consecutive_errors] at he hth; omega
      have hr : read_step ⟨e, r⟩ false = ⟨0, r + 1⟩ := by
        simp [read_step, hth]
      rw [hr, ih 0 (r + 1) (by simp [max_consecutive_errors])]
      simp only [max_consecutive_errors, LoopCtrs.mk.injEq] at *
      subst he9
      constructor <;> omega
    · have hr : read_step ⟨e, r⟩ false = ⟨e + 1, r⟩ := by
        simp [read_step, hth]
      rw [hr, ih (e + 1) r (by simp only [max_consecutive_errors] at hth ⊢; omega)]
      simp only [max_consecutive_errors, LoopCtrs.mk.injEq]
      constructor <;> omega

/-- C6 counterexample: the claim says `N ≥ maxConsecutiveErrors`
consecutive failures cause exactly one reconnect, but 20 straight
failures force the reconnection branch twice (the counter resets at
each threshold crossing, detector.py 231-233). -/
theorem spec_C6_cex :
    max_consecutive_errors ≤ 20 ∧
    (run_reads ⟨0, 0⟩ (List.replicate 20 false)).reconnects = 2 := by
  decide

/-- C6 (amended): with fewer than `maxConsecutiveErrors` straight
failures followed by a success, no reconnect is forced and the counter
resets to zero; with `N` straight failures, `N / maxConsecutiveErrors`
reconnects are forced — in particular exactly one when
`maxConsecutiveErrors ≤ N < 2 * maxConsecutiveErrors`. -/
theorem spec_C6_amended (N : Nat) :
    (N < max_consecutive_errors →
      run_reads ⟨0, 0⟩ (List.replicate N false ++ [true]) = ⟨0, 0⟩) ∧
    (run_reads ⟨0, 0⟩ (List.replicate N false)).reconnects = N / max_consecutive_errors ∧
    (max_consecutive_errors ≤ N → N < 2 * max_consecutive_errors →
      (run_reads ⟨0, 0⟩ (List.replicate N false)).reconnects = 1) := by
  have hbase := run_reads_replicate_false N 0 0 (by simp [max_consecutive_errors])
  refine ⟨?_, ?_, ?_⟩
  · intro hN
    have happ : run_reads ⟨0, 0⟩ (List.replicate N false ++ [true]) =
        run_reads (run_reads ⟨0, 0⟩ (List.replicate N false)) [true] := by
      simp [run_reads]
    rw [happ, hbase]
    have h1 : (0 + N) % max_consecutive_errors = N := by
      simp only [max_consecutive_errors] at hN ⊢; omega
    have h2 : (0 + N) / max_consecutive_errors = 0 := by
      simp only [max_consecutive_errors] at hN ⊢; omega
    rw [h1, h2]
    simp [run_reads, read_step]
  · rw [hbase]
    simp only [max_consecutive_errors]
    omega
  · intro h1 h2
    rw [hbase]
    simp only [max_consecutive_errors] at h1 h2 ⊢
    omega

/-- C6 witness: five failures then a success leave clean counters and
no reconnect; fifteen straight failures force exactly one reconnect. -/
theorem spec_C6_amended_witness :
    run_reads ⟨0, 0⟩ (List.replicate 5 false ++ [true]) = ⟨0, 0⟩ ∧
    (run_reads ⟨0, 0⟩ (List.replicate 15 false)).reconnects = 1 :=
  ⟨(spec_C6_amended 5).1 (by decide), (spec_C6_amended 15).2.2 (by decide) (by decide)⟩

/-! ### Scenario notification contents (claim C8) -/

/-- C8 counterexample: the scenario person detection at confidence 0.92
produces exactly one notification call, but the message renders the
confidence as `92.00%` (Python `f"{x:.2%}"`), so the claimed substring
`92%` does not occur in the message. -/
theorem spec_C8_cex :
    (process_detections det_run 100 [⟨"person", 92/100⟩]).2.1 = [⟨"person", 92/100, true⟩] ∧
    strContains req8.message "92%" = false := by
  decide

/-- C8 (amended): the scenario person detection at confidence 0.92
produces exactly one notification request, with priority `urgent` and a
message containing the substring `92.00%`. -/
theorem spec_C8_amended :
    (process_detections det_run 100 [⟨"person", 92/100⟩]).2.1 = [⟨"person", 92/100, true⟩] ∧
    req8.priority = "urgent" ∧
    strContains req8.message "92.00%" = true := by
  decide

/-! ### Webcam locator parsing (claim C10) -/

/-- C10 counterexample: `webcam://webcam://5` begins with `webcam://`
followed by the non-integer suffix `webcam://5`, yet the session does
not fall back to webcam index 0: `str.replace` removes every occurrence
of `webcam://`, so the locator parses to webcam index 5. -/
theorem spec_C10_cex :
    pyStartsWith "webcam://webcam://5" "webcam://" = true ∧
    pyIntParse "webcam://5" = none ∧
    parse_stream_url "webcam://webcam://5" "" = StreamUrl.webcam 5 := by
  decide

/-- C10 (amended): for a locator starting with `webcam://`, the webcam
index is obtained by deleting every occurrence of `webcam://` and
parsing the remainder as a Python `int`; whenever that remainder is
empty or non-integer the locator is not rejected and webcam index 0 is
used.  (For suffixes not containing `webcam://` themselves, the
remainder is exactly the suffix, as the claim intended.) -/
theorem spec_C10_amended (url port : String)
    (hpre : pyStartsWith url "webcam://" = true)
    (hsfx : pyReplace url "webcam://" "" = "" ∨
            pyIntParse (pyReplace url "webcam://" "") = none) :
    parse_stream_url url port = StreamUrl.webcam 0 := by
  unfold parse_stream_url
  rcases hsfx with h | h
  · simp [hpre, h]
  · by_cases hempty : pyReplace url "webcam://" "" = ""
    · simp [hpre, hempty]
    · simp [hpre, hempty, h]

/-- C10 witness: the bare locator `webcam://` (empty suffix) yields
webcam index 0. -/
theorem spec_C10_amended_witness :
    parse_stream_url "webcam://" "" = StreamUrl.webcam 0 :=
  spec_C10_amended "webcam://" "" (by decide) (Or.inl (by decide))

/-! ### Cooldown dictionary lemmas -/

/-- Updating a key makes its entry the written value. -/
theorem dictGet_dictSet_self (d : List (String × ℚ)) (k : String) (v : ℚ) :
    dictGet (dictSet d k v) k = some v := by
  induction d with
  | nil => simp [dictSet, dictGet]
  | cons p rest ih =>
    by_cases h : p.1 == k
    · simp [dictSet, dictGet, h]
    · simp [dictSet, dictGet, h, ih]

/-- Updating one key leaves every other key's entry unchanged. -/
theorem dictGet_dictSet_ne (d : List (String × ℚ)) (k k' : String) (v : ℚ)
    (h : (k == k') = false) :
    dictGet (dictSet d k v) k' = dictGet d k' := by
  induction d with
  | nil => simp [dictSet, dictGet, h]
  | cons p rest ih =>
    by_cases hp : p.1 == k
    · have hpk : p.1 = k := by simpa using hp
      have hp' : (p.1 == k') = false := by simpa [hpk] using h
      simp [dictSet, dictGet, hp, h, hp']
    · simp [dictSet, dictGet, hp, ih]

/-! ### Single-detection throttler lemmas -/

/-- A detection of a class never notified before, with a topic
configured, notifies and stamps the cooldown table (both the person and
the generic branch of detector.py 343-362). -/
theorem proc_one_fresh (det : Det) (t : ℚ) (tab : List (String × ℚ)) (d : Detection)
    (htopic : optTruthy det.ntfy_topic = true)
    (hfresh : dictMem tab d.cls = false) :
    proc_one det t tab d =
      (dictSet tab d.cls t,
       [⟨d.cls, d.confidence, pyLower d.cls == "person" && det.enable_person_detection⟩],
       if det.enable_logging && optTruthy det.supabase_url && optTruthy det.supabase_key
       then [⟨d.cls, d.confidence⟩] else []) := by
  cases hb : pyLower d.cls == "person" && det.enable_person_detection <;>
    simp [proc_one, hb, htopic, hfresh]

/-- A detection of a class within its cooldown window does nothing. -/
theorem proc_one_cooled (det : Det) (t : ℚ) (tab : List (String × ℚ)) (d : Detection)
    (tl : ℚ) (hmem : dictGet tab d.cls = some tl)
    (hcool : ¬(t - tl > det.notification_cooldown)) :
    proc_one det t tab d = (tab, [], []) := by
  have hm : dictMem tab d.cls = true := by simp [dictMem, hmem]
  cases hb : pyLower d.cls == "person" && det.enable_person_detection <;>
    simp [proc_one, hb, hm, hmem, hcool]

/-- A detection of a class past its cooldown window, with a topic
configured, notifies again and restamps the table. -/
theorem proc_one_hot (det : Det) (t : ℚ) (tab : List (String × ℚ)) (d : Detection)
    (tl : ℚ) (hmem : dictGet tab d.cls = some tl)
    (htopic : optTruthy det.ntfy_topic = true)
    (hhot : t - tl > det.notification_cooldown) :
    proc_one det t tab d =
      (dictSet tab d.cls t,
       [⟨d.cls, d.confidence, pyLower d.cls == "person" && det.enable_person_detection⟩],
       if det.enable_logging && optTruthy det.supabase_url && optTruthy det.supabase_key
       then [⟨d.cls, d.confidence⟩] else []) := by
  have hm : dictMem tab d.cls = true := by simp [dictMem, hmem]
  cases hb : pyLower d.cls == "person" && det.enable_person_detection <;>
    simp [proc_one, hb, hm, hmem, htopic, hhot]

/-- `process_detections` on a single detection reduces to one step of
the loop body. -/
theorem process_detections_singleton (det : Det) (t : ℚ) (d : Detection) :
    process_detections det t [d] =
      ({ det with last_notification_time := (proc_one det t det.last_notification_time d).1 },
       (proc_one det t det.last_notification_time d).2.1,
       (proc_one det t det.last_notification_time d).2.2) := by
  simp [process_detections, proc_list]

/-! ### Claim C2: per-class cooldown counting -/

/-- C2: for a class other than person, never notified before, with a
topic configured, two detections less than `notification_cooldown`
(default 60 s) apart yield exactly one notification request in total,
and two detections more than `notification_cooldown` apart yield two
(detector.py 355-362; the second detection of the close pair falls into
the `CooldownActive` window stamped by the first). -/
theorem spec_C2 (C : String) (hC : C ≠ "person") (det : Det)
    (htopic : optTruthy det.ntfy_topic = true)
    (hfresh : dictMem det.last_notification_time C = false)
    (c1 c2 t1 t2 : ℚ) :
    (t2 - t1 < det.notification_cooldown →
      (process_detections det t1 [⟨C, c1⟩]).2.1.length +
        (process_detections (process_detections det t1 [⟨C, c1⟩]).1 t2 [⟨C, c2⟩]).2.1.length
        = 1) ∧
    (t2 - t1 > det.notification_cooldown →
      (process_detections det t1 [⟨C, c1⟩]).2.1.length +
        (process_detections (process_detections det t1 [⟨C, c1⟩]).1 t2 [⟨C, c2⟩]).2.1.length
        = 2) := by
  have hfst := process_detections_singleton det t1 ⟨C, c1⟩
  rw [proc_one_fresh det t1 det.last_notification_time ⟨C, c1⟩ htopic hfresh] at hfst
  have hlen1 : (process_detections det t1 [⟨C, c1⟩]).2.1.length = 1 := by
    simp [hfst]
  have hdet1 : (process_detections det t1 [⟨C, c1⟩]).1 =
      { det with last_notification_time := dictSet det.last_notification_time C t1 } := by
    simp [hfst]
  have hg : dictGet (dictSet det.last_notification_time C t1) C = some t1 :=
    dictGet_dictSet_self _ _ _
  constructor
  · intro hlt
    have hcool : ¬(t2 - t1 > det.notification_cooldown) := lt_asymm hlt
    have hsnd := process_detections_singleton
      { det with last_notification_time := dictSet det.last_notification_time C t1 } t2 ⟨C, c2⟩
    dsimp only at hsnd
    rw [proc_one_cooled
        { det with last_notification_time := dictSet det.last_notification_time C t1 }
        t2 (dictSet det.last_notification_time C t1) ⟨C, c2⟩ t1 hg hcool] at hsnd
    rw [hdet1, hsnd, hlen1]
    simp
  · intro hgt
    have hsnd := process_detections_singleton
      { det with last_notification_time := dictSet det.last_notification_time C t1 } t2 ⟨C, c2⟩
    dsimp only at hsnd
    rw [proc_one_hot
        { det with last_notification_time := dictSet det.last_notification_time C t1 }
        t2 (dictSet det.last_notification_time C t1) ⟨C, c2⟩ t1 hg htopic hgt] at hsnd
    rw [hdet1, hsnd, hlen1]
    simp

/-- C2 witness: a fresh `dog` detection at time 0 followed by another at
time 30 (inside the 60 s cooldown) gives one request; at time 100
(outside) it would give two. -/
theorem spec_C2_witness :
    ((30 : ℚ) - 0 < det_run.notification_cooldown →
      (process_detections det_run 0 [⟨"dog", 1/2⟩]).2.1.length +
        (process_detections (process_detections det_run 0 [⟨"dog", 1/2⟩]).1 30
          [⟨"dog", 1/2⟩]).2.1.length = 1) ∧
    ((30 : ℚ) - 0 > det_run.notification_cooldown →
      (process_detections det_run 0 [⟨"dog", 1/2⟩]).2.1.length +
        (process_detections (process_detections det_run 0 [⟨"dog", 1/2⟩]).1 30
          [⟨"dog", 1/2⟩]).2.1.length = 2) :=
  spec_C2 "dog" (by decide) det_run (by decide) (by decide) (1/2) (1/2) 0 30

/-! ### Claim C7: person notifications carry the urgent priority -/

/-- C7: a person detection processed with person-alerting enabled, a
topic configured and the cooldown permitting produces exactly one
notification call, and the request built for it carries priority
`urgent` whatever default priority is configured (detector.py 343-348
and 372-375). -/
theorem spec_C7 (det : Det) (cls : String) (conf t : ℚ) (topic ts : String)
    (hcls : pyLower cls = "person")
    (hen : det.enable_person_detection = true)
    (htopic : optTruthy det.ntfy_topic = true)
    (hcd : dictMem det.last_notification_time cls = false ∨
           t - (dictGet det.last_notification_time cls).getD 0 > det.notification_cooldown) :
    (process_detections det t [⟨cls, conf⟩]).2.1 = [⟨cls, conf, true⟩] ∧
    (send_notification cls conf true det.ntfy_priority topic ts).priority = "urgent" := by
  constructor
  · rw [process_detections_singleton]
    have hcond : (!(dictMem det.last_notification_time cls) ||
        decide (t - (dictGet det.last_notification_time cls).getD 0 >
          det.notification_cooldown)) = true := by
      rcases hcd with h | h <;> simp [h]
    simp [proc_one, hcls, hen, htopic, hcond]
  · simp [send_notification, hcls]

/-- C7 witness: the scenario person detection at time 100 against the
fresh table, with default priority `default` configured. -/
theorem spec_C7_witness :
    (process_detections det_run 100 [⟨"person", 92/100⟩]).2.1 = [⟨"person", 92/100, true⟩] ∧
    (send_notification "person" (92/100) true det_run.ntfy_priority "alerts"
      "12:00:00").priority = "urgent" :=
  spec_C7 det_run "person" (92/100) 100 "alerts" "12:00:00" (by decide) (by decide)
    (by decide) (Or.inl (by decide))

/-! ### Claim C9: cooldown entries are written only on notification requests -/

/-- A single loop step changes the cooldown table at a class only if it
emits a notification call for that class. -/
theorem proc_one_table_change (det : Det) (t : ℚ) (tab : List (String × ℚ))
    (d : Detection) (C : String)
    (h : dictGet (proc_one det t tab d).1 C ≠ dictGet tab C) :
    ∃ cl ∈ (proc_one det t tab d).2.1, cl.object_class = C := by
  have hC : C = d.cls := by
    by_contra hne
    apply h
    have hbeq : (d.cls == C) = false := by
      simp [beq_eq_false_iff_ne]
      exact fun he => hne he.symm
    simp only [proc_one]
    split_ifs <;> simp [dictGet_dictSet_ne _ _ _ _ hbeq]
  subst hC
  simp only [proc_one] at h ⊢
  split_ifs at h ⊢ <;> simp_all

/-- Table changes over a whole detection list are witnessed by an
emitted notification call for the changed class. -/
theorem proc_list_table_change (det : Det) (t : ℚ) :
    ∀ (ds : List Detection) (tab : List (String × ℚ)) (C : String),
      dictGet (proc_list det t tab ds).1 C ≠ dictGet tab C →
      ∃ cl ∈ (proc_list det t tab ds).2.1, cl.object_class = C := by
  intro ds
  induction ds with
  | nil => intro tab C h; simp [proc_list] at h
  | cons d rest ih =>
    intro tab C h
    by_cases hstep : dictGet (proc_one det t tab d).1 C = dictGet tab C
    · have h2 : dictGet (proc_list det t (proc_one det t tab d).1 rest).1 C ≠
          dictGet (proc_one det t tab d).1 C := by
        rw [hstep]
        simpa [proc_list] using h
      obtain ⟨cl, hmem, hcl⟩ := ih (proc_one det t tab d).1 C h2
      exact ⟨cl, by simp only [proc_list, List.mem_append]; exact Or.inr hmem, hcl⟩
    · obtain ⟨cl, hmem, hcl⟩ := proc_one_table_change det t tab d C hstep
      exact ⟨cl, by simp only [proc_list, List.mem_append]; exact Or.inl hmem, hcl⟩

/-- With no topic configured, a loop step starting from the empty table
leaves it empty, emits no notification call, and (when logging is
enabled with credentials) logs exactly the detections that do not take
the person fast path. -/
theorem proc_one_no_topic (det : Det) (t : ℚ) (d : Detection)
    (htopic : optTruthy det.ntfy_topic = false)
    (hlog : (det.enable_logging && optTruthy det.supabase_url &&
             optTruthy det.supabase_key) = true) :
    proc_one det t [] d =
      ([], [],
       if pyLower d.cls == "person" && det.enable_person_detection then []
       else [⟨d.cls, d.confidence⟩]) := by
  cases hb : pyLower d.cls == "person" && det.enable_person_detection <;>
    simp [proc_one, hb, htopic, hlog, dictMem, dictGet]

/-- With no topic configured, the whole loop keeps the table empty,
emits no notification call, and logs every non-person-path detection. -/
theorem proc_list_no_topic (det : Det) (t : ℚ)
    (htopic : optTruthy det.ntfy_topic = false)
    (hlog : (det.enable_logging && optTruthy det.supabase_url &&
             optTruthy det.supabase_key) = true) :
    ∀ ds : List Detection,
      proc_list det t [] ds =
        ([], [],
         (ds.filter
            (fun d => !(pyLower d.cls == "person" && det.enable_person_detection))).map
           (fun d => ⟨d.cls, d.confidence⟩)) := by
  intro ds
  induction ds with
  | nil => simp [proc_list]
  | cons d rest ih =>
    have h1 := proc_one_no_topic det t d htopic hlog
    cases hp : pyLower d.cls == "person" <;> cases he : det.enable_person_detection <;>
      simp_all [proc_list, List.filter_cons]

/-- C9: a cooldown-table entry for a class is written only when a
notification call for that exact class is emitted; consequently with no
topic configured the table stays empty forever, no notification is
requested, and (logging enabled, credentials present) persistence
logging is attempted for every processed non-person detection with no
cooldown throttling (detector.py 335-366). -/
theorem spec_C9 :
    (∀ (det : Det) (t : ℚ) (ds : List Detection) (C : String),
      dictGet (process_detections det t ds).1.last_notification_time C ≠
        dictGet det.last_notification_time C →
      ∃ cl ∈ (process_detections det t ds).2.1, cl.object_class = C) ∧
    (∀ (det : Det) (t : ℚ) (ds : List Detection),
      optTruthy det.ntfy_topic = false →
      det.last_notification_time = [] →
      (det.enable_logging && optTruthy det.supabase_url &&
        optTruthy det.supabase_key) = true →
      (process_detections det t ds).1.last_notification_time = [] ∧
      (process_detections det t ds).2.1 = [] ∧
      (process_detections det t ds).2.2 =
        (ds.filter
          (fun d => !(pyLower d.cls == "person" && det.enable_person_detection))).map
          (fun d => ⟨d.cls, d.confidence⟩)) := by
  constructor
  · intro det t ds C h
    simp only [process_detections] at h ⊢
    exact proc_list_table_change det t ds det.last_notification_time C h
  · intro det t ds htopic htab hlog
    have h := proc_list_no_topic det t htopic hlog ds
    simp only [process_detections, htab, h]
    simp

/-- C9 witness: with logging configured but no topic, a dog plus a
person detection leave the table empty, request no notification, and
log exactly the dog. -/
theorem spec_C9_witness :
    (process_detections det_log 100 [⟨"dog", 1/2⟩, ⟨"person", 9/10⟩]).1.last_notification_time
      = [] ∧
    (process_detections det_log 100 [⟨"dog", 1/2⟩, ⟨"person", 9/10⟩]).2.1 = [] :=
  ⟨(spec_C9.2 det_log 100 [⟨"dog", 1/2⟩, ⟨"person", 9/10⟩] rfl rfl rfl).1,
   (spec_C9.2 det_log 100 [⟨"dog", 1/2⟩, ⟨"person", 9/10⟩] rfl rfl rfl).2.1⟩

/-! ### Claim C1: state surviving a stop/start cycle -/

/-- C1 counterexample: a running session whose cooldown table holds a
`dog` entry is stopped and restarted with the same settings; the
restart succeeds but the `NotificationCooldownTable` is still
non-empty — neither `stop_detection` (detector.py 144-155) nor
`start_detection` ever clears `last_notification_time`. -/
theorem spec_C1_cex :
    (app_stop a_run detC1).2.2 = true ∧
    (app_start (app_stop a_run detC1).1 (app_stop a_run detC1).2.1 st0 env0).2.2 = true ∧
    (app_start (app_stop a_run detC1).1 (app_stop a_run detC1).2.1
      st0 env0).2.1.last_notification_time ≠ [] := by
  decide

/-- C1 (amended): `stop()` followed by a successful `start()` with the
same settings yields an empty `LatestFrameSlot`, but the
`NotificationCooldownTable` is carried over unchanged — it is never
cleared at session stop. -/
theorem spec_C1_amended (a : AppState) (d : Det) (st : Settings) (env : Env)
    (hact : a.detection_active = true) (hrun : d.is_running = true)
    (hurl : strTruthy st.ipCameraUrl = true)
    (hmodel : d.model_loaded = true ∨ env.model_ok = true)
    (hopen : env.open_ok = true) :
    (app_stop a d).2.2 = true ∧
    (app_start (app_stop a d).1 (app_stop a d).2.1 st env).2.2 = true ∧
    (app_start (app_stop a d).1 (app_stop a d).2.1 st env).1.latest_frame = none ∧
    (app_start (app_stop a d).1 (app_stop a d).2.1 st env).2.1.last_notification_time
      = d.last_notification_time := by
  have hstop : app_stop a d =
      ({ a with detection_active := false, latest_frame := none, current_settings := none },
       { d with is_running := false, cap := none }, true) := by
    simp [app_stop, detector_stop, hact, hrun]
  rw [hstop]
  have hstart : (app_start
        { a with detection_active := false, latest_frame := none, current_settings := none }
        { d with is_running := false, cap := none } st env).2.2 = true ∧
      (app_start
        { a with detection_active := false, latest_frame := none, current_settings := none }
        { d with is_running := false, cap := none } st env).1.latest_frame = none ∧
      (app_start
        { a with detection_active := false, latest_frame := none, current_settings := none }
        { d with is_running := false, cap := none } st env).2.1.last_notification_time
        = d.last_notification_time := by
    rcases hmodel with hm | hm <;> simp [app_start, detector_start, hurl, hopen, hm]
  exact ⟨rfl, hstart.1, hstart.2.1, hstart.2.2⟩

/-- C1 witness: the running session with the `dog` cooldown entry. -/
theorem spec_C1_amended_witness :
    (app_stop a_run detC1).2.2 = true ∧
    (app_start (app_stop a_run detC1).1 (app_stop a_run detC1).2.1 st0 env0).2.2 = true ∧
    (app_start (app_stop a_run detC1).1 (app_stop a_run detC1).2.1
      st0 env0).1.latest_frame = none ∧
    (app_start (app_stop a_run detC1).1 (app_stop a_run detC1).2.1
      st0 env0).2.1.last_notification_time = detC1.last_notification_time :=
  spec_C1_amended a_run detC1 st0 env0 rfl (by decide) (by decide) (Or.inr rfl) rfl

/-! ### Claim C4: what actually triggers the monitor's restart -/

/-- C4 counterexample: the session is marked active and the liveness
signal is 1000 s old — far beyond three times the 5 s interval — yet a
monitor pass performs no stop-then-start cycle at all: it merely
re-stamps the heartbeat (app.py 41), because the restart condition is
`not detector.is_running` (app.py 44), never the heartbeat age. -/
theorem spec_C4_cex :
    get_last_heartbeat_age det_run 1000 > det_run.heartbeat_interval * 3 ∧
    (monitor_step a_run det_run mFar).2.2.1 = false ∧
    (monitor_step a_run det_run mFar).2.1 = { det_run with last_heartbeat := 1000 } := by
  decide

/-- C4 (amended): while the session is marked active with saved
settings, a monitor pass performs the stop-then-start cycle exactly
when the internal running flag is down (heartbeat age is not
consulted); and — the monitor having just re-stamped the heartbeat —
it emits the warning exactly when the age measured at the later check
against the fresh stamp exceeds twice the interval. -/
theorem spec_C4_amended (a : AppState) (d : Det) (m : MonEnv) (st : Settings)
    (hact : a.detection_active = true) (hset : a.current_settings = some st) :
    ((monitor_step a d m).2.2.1 = !d.is_running) ∧
    (d.is_running = true →
      (monitor_step a d m).2.2.2 =
        decide (m.check_time - m.now > d.heartbeat_interval * 2)) := by
  constructor
  · cases hr : d.is_running
    · simp [monitor_step, hact, hset, hr]
      split <;> rfl
    · simp [monitor_step, hact, hr]
  · intro hr
    simp [monitor_step, hact, hr]

/-- C4 witness: the active running session polled at time 1000. -/
theorem spec_C4_amended_witness :
    ((monitor_step a_run det_run mFar).2.2.1 = !det_run.is_running) ∧
    (det_run.is_running = true →
      (monitor_step a_run det_run mFar).2.2.2 =
        decide (mFar.check_time - mFar.now > det_run.heartbeat_interval * 2)) :=
  spec_C4_amended a_run det_run mFar st0 rfl rfl

/-! ### Claim C5: failed automatic restart marks the session failed -/

/-- C5: when the monitor finds the session marked active with the loop
dead and saved settings present, and the restart's `start_detection`
fails (stream does not open, or the model cannot load), the session is
marked inactive (`Failed` in the spec's taxonomy) and the latest-frame
slot is cleared (app.py 61-69). -/
theorem spec_C5 (a : AppState) (d : Det) (m : MonEnv) (st : Settings)
    (hact : a.detection_active = true) (hrun : d.is_running = false)
    (hset : a.current_settings = some st)
    (hfail : m.env.open_ok = false ∨ (d.model_loaded = false ∧ m.env.model_ok = false)) :
    (monitor_step a d m).1.detection_active = false ∧
    (monitor_step a d m).1.latest_frame = none ∧
    (monitor_step a d m).2.2.1 = true := by
  have key : ∀ dd : Det, dd.is_running = false → dd.model_loaded = d.model_loaded →
      ∀ ee : Env, ee.model_ok = m.env.model_ok → ee.open_ok = m.env.open_ok →
      (detector_start st ee dd).2.1 = false := by
    intro dd h1 h2 ee e1 e2
    rcases hfail with h | ⟨hm1, hm2⟩
    · simp only [detector_start, h1]
      split_ifs <;> simp_all
    · simp [detector_start, h1, h2, hm1, e1, hm2]
  simp [monitor_step, detector_stop, hact, hrun, hset]
  split_ifs with hok
  · exfalso
    simp [key] at hok
  · simp

/-- C5 witness: the active session with the dead loop and a restart
that fails to open the stream. -/
theorem spec_C5_witness :
    (monitor_step a_run dDead mBad).1.detection_active = false ∧
    (monitor_step a_run dDead mBad).1.latest_frame = none ∧
    (monitor_step a_run dDead mBad).2.2.1 = true :=
  spec_C5 a_run dDead mBad st0 rfl (by decide) rfl (Or.inl rfl)

/-! ### Claim C3: capture handle versus running state -/

/-- Starting the detector preserves the open-handle-implies-running
invariant. -/
theorem detector_start_capInv (st : Settings) (env : Env) (d : Det) (h : capInv d) :
    capInv (detector_start st env d).1 := by
  cases hrun : d.is_running with
  | true => simpa [detector_start, hrun] using h
  | false =>
    cases hmod : (!d.model_loaded && !env.model_ok) with
    | true =>
      intro c hc hop
      simp [detector_start, hrun, hmod] at hc
      have hx := h c hc hop
      simp [hrun] at hx
    | false =>
      cases hop2 : env.open_ok with
      | true => intro c hc hop; simp [detector_start, hrun, hmod, hop2]
      | false =>
        intro c hc hop
        simp [detector_start, hrun, hmod, hop2] at hc
        subst hc
        simp at hop

/-- Stopping the detector preserves the invariant. -/
theorem detector_stop_capInv (d : Det) (h : capInv d) : capInv (detector_stop d).1 := by
  cases hrun : d.is_running with
  | true => intro c hc hop; simp [detector_stop, hrun] at hc
  | false => simpa [detector_stop, hrun] using h

/-- The `/start` route preserves the invariant. -/
theorem app_start_capInv (a : AppState) (d : Det) (st : Settings) (env : Env)
    (h : capInv d) : capInv (app_start a d st env).2.1 := by
  cases hact : a.detection_active with
  | true => simpa [app_start, hact] using h
  | false =>
    cases hurl : strTruthy st.ipCameraUrl with
    | false => simpa [app_start, hact, hurl] using h
    | true =>
      cases hok : (detector_start st env d).2.1 with
      | true =>
        simpa [app_start, hact, hurl, hok] using detector_start_capInv st env d h
      | false =>
        simpa [app_start, hact, hurl, hok] using detector_start_capInv st env d h

/-- The `/stop` route preserves the invariant. -/
theorem app_stop_capInv (a : AppState) (d : Det) (h : capInv d) :
    capInv (app_stop a d).2.1 := by
  cases hact : a.detection_active with
  | false => simpa [app_stop, hact] using h
  | true =>
    cases hok : (detector_stop d).2.1 with
    | true => simpa [app_stop, hact, hok] using detector_stop_capInv d h
    | false => simpa [app_stop, hact, hok] using detector_stop_capInv d h

/-- A monitor pass preserves the invariant. -/
theorem monitor_step_capInv (a : AppState) (d : Det) (m : MonEnv) (h : capInv d) :
    capInv (monitor_step a d m).2.1 := by
  cases hact : a.detection_active with
  | false => simpa [monitor_step, hact] using h
  | true =>
    cases hrun : d.is_running with
    | true =>
      simp [monitor_step, hact, hrun]
      intro c hc hop
      rfl
    | false =>
      have hnoopen : ∀ c : Capture, d.cap = some c → c.opened = true → False := by
        intro c hc hop
        have hx := h c hc hop
        rw [hrun] at hx
        exact Bool.false_ne_true hx
      have h2 : ∀ dd : Det, dd.cap = d.cap → capInv dd := by
        intro dd hdd c hc hop
        exact (hnoopen c (hdd.symm.trans hc) hop).elim
      cases hset : a.current_settings with
      | none =>
        simp [monitor_step, hact, hrun, hset]
        exact h2 _ rfl
      | some st =>
        simp [monitor_step, hact, hrun, hset]
        split
        · exact detector_start_capInv _ _ _ (detector_stop_capInv _ (h2 _ rfl))
        · exact detector_start_capInv _ _ _ (detector_stop_capInv _ (h2 _ rfl))

/-- Every reachable supervisor state satisfies the open-handle
invariant. -/
theorem reach_capInv (s : AppState × Det) (h : Reach s) : capInv s.2 := by
  induction h with
  | init => intro c hc hop; simp [det_init] at hc
  | start a d st env hr ih => exact app_start_capInv a d st env ih
  | stop a d hr ih => exact app_stop_capInv a d ih
  | monitor a d m hr ih => exact monitor_step_capInv a d m ih
  | stuck_read a d c hr hrun hcap hop ih => intro c' hc' hop'; simp at hc'
  | reconnect a d b hr hrun ih => intro c' hc' hop'; exact hrun
  | loop_exit a d hr hrun ih => intro c' hc' hop'; simp at hc'

/-- C3 counterexample: the biconditional fails in both directions.
After a successful start, a stuck frame read (detector.py 214-220)
releases the handle while the session is still Running; and a start
whose stream fails to open leaves the unopened capture object in the
`cap` attribute while the session is not Running (detector.py
124-127). -/
theorem spec_C3_cex :
    (Reach s2C3 ∧ s2C3.2.is_running = true ∧ s2C3.2.cap = none) ∧
    (Reach s3bad ∧ s3bad.2.is_running = false ∧ s3bad.2.cap = some ⟨false⟩) := by
  constructor
  · refine ⟨?_, by decide, rfl⟩
    exact Reach.stuck_read s1C3.1 s1C3.2 ⟨true⟩
      (Reach.start app_init det_init st0 env0 Reach.init) (by decide) (by decide) rfl
  · refine ⟨?_, by decide, by decide⟩
    exact Reach.start app_init det_init st0 env_bad Reach.init

/-- C3 (amended): at every reachable point, an open capture object is
held only while the session is Running; a Running session may
temporarily hold no handle (stuck-read recovery, reconnection waits,
cleanup after the reconnect budget is exhausted), and a failed start
leaves an unopened capture object while not Running. -/
theorem spec_C3_amended (s : AppState × Det) (h : Reach s) (c : Capture)
    (hc : s.2.cap = some c) (hop : c.opened = true) : s.2.is_running = true :=
  reach_capInv s h c hc hop

/-- C3 witness: the freshly started session holds its open handle and
is indeed running. -/
theorem spec_C3_amended_witness : s1C3.2.is_running = true :=
  spec_C3_amended s1C3 (Reach.start app_init det_init st0 env0 Reach.init) ⟨true⟩
    (by decide) rfl

end

end Sentery
